import Mathlib

/-!
Verification of the Grocery Remix recipe orchestration and persistence layer.

The browser client `src/frontend/src/App.jsx` is embedded directly.  The
backend components described by the specification (InferenceGateway,
PromptBuilder, ResponseParser, RecipeGenerator, RecipeStore) have no source
file in this checkout, so they are modelled from the specification text;
each such definition carries a doc comment saying so.
-/

namespace GroceryRemix

/-- The fixed dietary-filter vocabulary, DIETARY_OPTIONS in
src/frontend/src/App.jsx lines 6-14. -/
def DIETARY_OPTIONS : List String :=
  ["vegetarian", "vegan", "gluten-free", "dairy-free", "low-carb", "keto", "nut-free"]

/-- Unicode-whitespace trim on the underlying character list, the semantics
of JavaScript String.prototype.trim. -/
def trimChars (cs : List Char) : List Char :=
  ((cs.dropWhile Char.isWhitespace).reverse.dropWhile Char.isWhitespace).reverse

/-- JavaScript String.prototype.trim. -/
def jsTrim (s : String) : String := String.mk (trimChars s.data)

/-- Split a character list at every occurrence of the separator, the
semantics of JavaScript String.prototype.split with a one-character
separator. -/
def splitAtChar (sep : Char) : List Char → List (List Char)
  | [] => [[]]
  | c :: cs =>
      if c = sep then [] :: splitAtChar sep cs
      else
        match splitAtChar sep cs with
        | [] => [[c]]
        | p :: ps => (c :: p) :: ps

/-- JavaScript String.prototype.split with a one-character separator. -/
def jsSplit (sep : Char) (s : String) : List String :=
  (splitAtChar sep s.data).map String.mk

/-- JavaScript String.prototype.toLowerCase, characterwise. -/
def jsToLower (s : String) : String := String.mk (s.data.map Char.toLower)

/-- Embedding of the toggleFilter handler, src/frontend/src/App.jsx lines 57-63:
if the filter is already in the list, keep only the elements different from it;
otherwise append it at the end. -/
def toggleFilter (filter : String) (prev : List String) : List String :=
  if filter ∈ prev then prev.filter (fun f => f != filter) else prev ++ [filter]

/-- Embedding of the toggleMacroFilter handler, src/frontend/src/App.jsx
lines 65-71; same logic as toggleFilter on the macro-tab filter list. -/
def toggleMacroFilter (filter : String) (prev : List String) : List String :=
  if filter ∈ prev then prev.filter (fun f => f != filter) else prev ++ [filter]

/-- Decimal digit run at the front of a character list, as consumed by
JavaScript parseInt: none when no leading digit exists. -/
def parseDigits (cs : List Char) : Option Nat :=
  let ds := cs.takeWhile Char.isDigit
  if ds.isEmpty then none
  else some (ds.foldl (fun a c => a * 10 + (c.toNat - 48)) 0)

/-- JavaScript parseInt in radix 10, as applied to number-input value strings
in src/frontend/src/App.jsx lines 88-91: skip surrounding whitespace, read an
optional sign and a leading digit run, ignore the rest; none models NaN (which
JSON.stringify then serialises as null). -/
def parseIntJS (s : String) : Option Int :=
  match trimChars s.data with
  | '-' :: rest => (parseDigits rest).map (fun n => -(n : Int))
  | '+' :: rest => (parseDigits rest).map (fun n => (n : Int))
  | cs => (parseDigits cs).map (fun n => (n : Int))

/-- Request body of POST /generate as built in src/frontend/src/App.jsx
lines 126-129. -/
structure GenerateBody where
  ingredients : List String
  dietary_filters : List String
deriving Repr, DecidableEq

/-- Request body of POST /generate-from-macros as built in
src/frontend/src/App.jsx lines 87-93. -/
structure MacroBody where
  calories : Option Int
  protein : Option Int
  carbs : Option Int
  fat : Option Int
  dietary_filters : List String
deriving Repr, DecidableEq

/-- Request body of POST /substitute as built in src/frontend/src/App.jsx
lines 160-163. -/
structure SubstituteBody where
  ingredient : String
  context : Option String
deriving Repr, DecidableEq

/-- Ingredient-list preparation of src/frontend/src/App.jsx line 121:
split on commas, trim each part, drop empty parts. -/
def splitIngredients (s : String) : List String :=
  ((jsSplit ',' s).map jsTrim).filter (fun t => !t.isEmpty)

/-- Embedding of the generateRecipe handler, src/frontend/src/App.jsx
lines 110-144, up to the network boundary: none when validation fails and no
fetch is issued, otherwise the JSON body sent to POST /generate. -/
def generateRecipe (ingredients : String) (dietaryFilters : List String) :
    Option GenerateBody :=
  if (jsTrim ingredients).isEmpty then none
  else some { ingredients := splitIngredients ingredients,
              dietary_filters := dietaryFilters }

/-- One macro field of the request body: null when the input string is falsy
(empty), otherwise parseInt of the string (src/frontend/src/App.jsx
lines 88-91). -/
def macroField (s : String) : Option Int :=
  if s.isEmpty then none else parseIntJS s

/-- Embedding of the generateFromMacros handler, src/frontend/src/App.jsx
lines 73-108, up to the network boundary: none when all four macro inputs are
empty (validation fails, no fetch), otherwise the JSON body sent to
POST /generate-from-macros. -/
def generateFromMacros (cal prot carbs fat : String) (filters : List String) :
    Option MacroBody :=
  if cal.isEmpty && prot.isEmpty && carbs.isEmpty && fat.isEmpty then none
  else some { calories := macroField cal, protein := macroField prot,
              carbs := macroField carbs, fat := macroField fat,
              dietary_filters := filters }

/-- Embedding of the getSubstitution handler, src/frontend/src/App.jsx
lines 146-178, up to the network boundary: none when the ingredient is blank
(validation fails, no fetch), otherwise the JSON body sent to
POST /substitute. -/
def getSubstitution (subIngredient subContext : String) : Option SubstituteBody :=
  if (jsTrim subIngredient).isEmpty then none
  else some { ingredient := subIngredient,
              context := if subContext.isEmpty then none else some subContext }

/-- Modelled from the spec: the error taxonomy of section 7 (the backend
sources recipe_generator.py, llm_client.py and storage.py are not in this
checkout). -/
inductive AppError where
  | InvalidRequest
  | UnreachableEndpoint
  | InferenceTimeout
  | MalformedResponse
  | NotFound
  | StorageWriteError
deriving Repr, DecidableEq

/-- Modelled from the spec: the tagged ResponseParser result of design note 9
(title, body, explicit title-inferred-vs-fallback flag). -/
structure ParsedResponse where
  title : String
  body : String
  titleInferred : Bool
deriving Repr, DecidableEq

/-- Modelled from the spec: the generic fallback display title of
section 4.3. -/
def fallbackTitle : String := "Generated Recipe"

/-- Modelled from the spec: the heading-likeness test of section 4.3, which
the spec leaves informal; a line reads as a heading when it is short and does
not end like a sentence. -/
def isHeadingLike (line : String) : Bool :=
  line.length ≤ 80 && !(line.data.getLast? == some '.')

/-- First line of the text whose trimmed form is non-empty, if any. -/
def firstNonBlankLine (s : String) : Option String :=
  (jsSplit '\n' s).find? (fun l => !(jsTrim l).isEmpty)

/-- Modelled from the spec: ResponseParser (section 4.3, no source file in
this checkout).  The title is the trimmed first non-empty line when it reads
as a heading-like phrase, else the generic fallback label; the body is the
full raw text unmodified; parsing is total. -/
def parseResponse (raw : String) : ParsedResponse :=
  match firstNonBlankLine raw with
  | none => { title := fallbackTitle, body := raw, titleInferred := false }
  | some l =>
      if isHeadingLike (jsTrim l) then
        { title := jsTrim l, body := raw, titleInferred := true }
      else
        { title := fallbackTitle, body := raw, titleInferred := false }

/-- Modelled from the spec: the generate-from-ingredients request shape of
section 6. -/
structure IngredientsRequest where
  ingredients : List String
  dietary_filters : List String
deriving Repr, DecidableEq

/-- Modelled from the spec: the optional macro targets of section 3, each
absent or an integer. -/
structure MacroTargets where
  calories : Option Int
  protein : Option Int
  carbs : Option Int
  fat : Option Int
deriving Repr, DecidableEq

/-- Modelled from the spec: the generate-from-macros request shape of
section 6. -/
structure MacrosRequest where
  targets : MacroTargets
  dietary_filters : List String
deriving Repr, DecidableEq

/-- Modelled from the spec: the substitution request shape of sections 3
and 6. -/
structure SubstitutionRequest where
  ingredient : String
  context : Option String
deriving Repr, DecidableEq

/-- Modelled from the spec: PromptBuilder's canonical fixed filter order of
section 4.1, independent of the input order of a filter set. -/
def canonicalFilters (fs : List String) : List String :=
  DIETARY_OPTIONS.filter fs.contains

/-- Modelled from the spec: the fixed chef-persona system prompt of
section 4.1. -/
def chefSystemPrompt : String :=
  "You are an experienced chef who writes clear, practical recipes."

/-- Modelled from the spec: the substitution persona of section 4.4,
emphasising practical kitchen substitution with quantities when relevant. -/
def substitutionSystemPrompt : String :=
  "You are an experienced chef who suggests practical kitchen substitutions, with quantities when relevant."

/-- Modelled from the spec: the user prompt for an ingredients request,
ingredients in input order, filters in canonical order (section 4.1). -/
def ingredientsUserPrompt (req : IngredientsRequest) : String :=
  "Create a recipe using these ingredients: " ++
    String.intercalate ", " req.ingredients ++
    (if req.dietary_filters.isEmpty then ""
     else ". Dietary requirements: " ++
       String.intercalate ", " (canonicalFilters req.dietary_filters))

/-- One labelled macro-target line fragment, empty when the target is
absent. -/
def macroLine (label : String) (v : Option Int) : List String :=
  match v with
  | none => []
  | some n => [label ++ ": " ++ toString n]

/-- Modelled from the spec: the user prompt for a macro-only request, which
instructs the model to invent appropriate ingredients matching the targets
(section 4.1). -/
def macrosUserPrompt (req : MacrosRequest) : String :=
  "Invent a recipe with appropriate ingredients matching these nutritional targets: " ++
    String.intercalate ", "
      (macroLine "calories" req.targets.calories ++
       macroLine "protein g" req.targets.protein ++
       macroLine "carbs g" req.targets.carbs ++
       macroLine "fat g" req.targets.fat) ++
    (if req.dietary_filters.isEmpty then ""
     else ". Dietary requirements: " ++
       String.intercalate ", " (canonicalFilters req.dietary_filters))

/-- Modelled from the spec: the user prompt for a substitution request
(section 4.4). -/
def substitutionUserPrompt (req : SubstitutionRequest) : String :=
  "Suggest a practical substitution for: " ++ req.ingredient ++
    (match req.context with
     | none => ""
     | some c => ". Context: " ++ c)

/-- Modelled from the spec: the generate-from-ingredients output shape of
section 6, carrying the echoed ingredients and filters (sections 3, 4.4). -/
structure IngredientsResult where
  recipe : String
  ingredients : List String
  dietary_filters : List String
deriving Repr, DecidableEq

/-- Modelled from the spec: the generate-from-macros output shape of
section 6, carrying the echoed targets, plus the echoed filters of
section 3. -/
structure MacrosResult where
  recipe : String
  targets : MacroTargets
  dietary_filters : List String
deriving Repr, DecidableEq

/-- Modelled from the spec: the substitution output shape of section 6. -/
structure SubstitutionResult where
  ingredient : String
  suggestion : String
deriving Repr, DecidableEq

/-- Modelled from the spec: the InferenceGateway of section 4.2 as an oracle,
one complete call returning raw text or one of the inference-layer errors. -/
def Gateway : Type := String → String → Except AppError String

/-- Whether at least one macro target is present (the validation of
section 4.4 for generate-from-macros). -/
def hasMacroTarget (t : MacroTargets) : Bool :=
  t.calories.isSome || t.protein.isSome || t.carbs.isSome || t.fat.isSome

/-- Modelled from the spec: RecipeGenerator.generateFromIngredients of
section 4.4 (no source file in this checkout): validate the ingredient list
non-empty before any gateway call, build the prompt, call the gateway once,
parse, echo ingredients and filters.  The second component counts gateway
calls. -/
def generateFromIngredientsOp (gw : Gateway) (req : IngredientsRequest) :
    Except AppError IngredientsResult × Nat :=
  if req.ingredients.isEmpty then (Except.error AppError.InvalidRequest, 0)
  else
    match gw chefSystemPrompt (ingredientsUserPrompt req) with
    | Except.error e => (Except.error e, 1)
    | Except.ok raw =>
        (Except.ok { recipe := (parseResponse raw).body,
                     ingredients := req.ingredients,
                     dietary_filters := req.dietary_filters }, 1)

/-- Modelled from the spec: RecipeGenerator.generateFromMacros of
section 4.4: validate at least one macro target present before any gateway
call, same pipeline, echo the targets.  The second component counts gateway
calls. -/
def generateFromMacrosOp (gw : Gateway) (req : MacrosRequest) :
    Except AppError MacrosResult × Nat :=
  if !hasMacroTarget req.targets then (Except.error AppError.InvalidRequest, 0)
  else
    match gw chefSystemPrompt (macrosUserPrompt req) with
    | Except.error e => (Except.error e, 1)
    | Except.ok raw =>
        (Except.ok { recipe := (parseResponse raw).body,
                     targets := req.targets,
                     dietary_filters := req.dietary_filters }, 1)

/-- Modelled from the spec: RecipeGenerator.suggestSubstitution of
section 4.4: validate the ingredient non-empty before any gateway call; the
whole raw reply, trimmed of surrounding whitespace, is the suggestion
(section 4.3).  The second component counts gateway calls. -/
def suggestSubstitutionOp (gw : Gateway) (req : SubstitutionRequest) :
    Except AppError SubstitutionResult × Nat :=
  if req.ingredient.isEmpty then (Except.error AppError.InvalidRequest, 0)
  else
    match gw substitutionSystemPrompt (substitutionUserPrompt req) with
    | Except.error e => (Except.error e, 1)
    | Except.ok raw =>
        (Except.ok { ingredient := req.ingredient, suggestion := jsTrim raw }, 1)

/-- Modelled from the spec: a SavedRecipe record of section 3 (storage.py is
not in this checkout). -/
structure SavedRecipe where
  id : Nat
  title : String
  body : String
  ingredients : List String
  filters : List String
  createdAt : Nat
deriving Repr, DecidableEq

/-- Modelled from the spec: the RecipeStore state — the ordered
RecipeCollection of section 3 plus the next fresh identifier (ids are
assigned at save time and never reused). -/
structure RecipeStore where
  recipes : List SavedRecipe
  nextId : Nat
deriving Repr, DecidableEq

/-- The empty store a fresh process starts from when the backing file is
absent (section 4.5). -/
def RecipeStore.empty : RecipeStore := { recipes := [], nextId := 0 }

/-- Modelled from the spec: RecipeStore.save of section 4.5.  A fresh id is
assigned, the record appended with the current timestamp and the whole
collection persisted; persistOk models whether the durable write completes.
On write failure the in-memory collection is rolled back to its pre-call
state.  Returns the call result paired with the store state after the
call. -/
def RecipeStore.save (st : RecipeStore) (persistOk : List SavedRecipe → Bool)
    (title body : String) (ingredients filters : List String) (now : Nat) :
    Except AppError Nat × RecipeStore :=
  if persistOk (st.recipes ++
      [{ id := st.nextId, title := title, body := body,
         ingredients := ingredients, filters := filters, createdAt := now }]) then
    (Except.ok st.nextId,
     { recipes := st.recipes ++
         [{ id := st.nextId, title := title, body := body,
            ingredients := ingredients, filters := filters, createdAt := now }],
       nextId := st.nextId + 1 })
  else
    (Except.error AppError.StorageWriteError, st)

/-- Modelled from the spec: RecipeStore.listAll of section 4.5 — all records
in insertion order, no pagination. -/
def RecipeStore.listAll (st : RecipeStore) : List SavedRecipe := st.recipes

/-- Modelled from the spec: RecipeStore.get of section 4.5 — NotFound when no
record has the id. -/
def RecipeStore.get (st : RecipeStore) (id : Nat) : Except AppError SavedRecipe :=
  match st.recipes.find? (fun r => r.id == id) with
  | some r => Except.ok r
  | none => Except.error AppError.NotFound

/-- Modelled from the spec: RecipeStore.delete of section 4.5 — NotFound when
no record has the id, otherwise the record is removed and the reduced
collection persisted (the spec gives delete no write-failure mode, so the
durable write is modelled as completing). -/
def RecipeStore.delete (st : RecipeStore) (id : Nat) : Except AppError RecipeStore :=
  if st.recipes.any (fun r => r.id == id) then
    Except.ok { recipes := st.recipes.filter (fun r => r.id != id),
                nextId := st.nextId }
  else
    Except.error AppError.NotFound

/-- Case-sensitive substring test on the underlying character lists. -/
def substrOf (needle hay : String) : Bool :=
  decide (needle.data <:+: hay.data)

/-- Modelled from the spec: the search predicate of section 4.5 —
case-insensitive substring match against the title or any ingredient of the
record. -/
def matchesQuery (q : String) (r : SavedRecipe) : Bool :=
  substrOf (jsToLower q) (jsToLower r.title) ||
    r.ingredients.any (fun i => substrOf (jsToLower q) (jsToLower i))

/-- Modelled from the spec: RecipeStore.search of section 4.5 — matches in
insertion order, empty list (not an error) when nothing matches. -/
def RecipeStore.search (st : RecipeStore) (q : String) : List SavedRecipe :=
  st.recipes.filter (matchesQuery q)

/-- The store invariant: every stored id is below the next fresh id (so ids
are never reused) and the stored ids are pairwise distinct. -/
def StoreInv (st : RecipeStore) : Prop :=
  (∀ r ∈ st.recipes, r.id < st.nextId) ∧ (st.recipes.map SavedRecipe.id).Nodup

instance (st : RecipeStore) : Decidable (StoreInv st) := by
  unfold StoreInv
  infer_instance

/-- Store states reachable from the empty store by save and delete calls (the
only mutating operations of section 4.5). -/
inductive Reachable : RecipeStore → Prop where
  | init : Reachable RecipeStore.empty
  | sv (pOk : List SavedRecipe → Bool) (st : RecipeStore)
      (title body : String) (ingredients filters : List String) (now : Nat)
      (res : Except AppError Nat) (st₂ : RecipeStore) :
      Reachable st →
      st.save pOk title body ingredients filters now = (res, st₂) →
      Reachable st₂
  | del (st : RecipeStore) (id : Nat) (st₂ : RecipeStore) :
      Reachable st → st.delete id = Except.ok st₂ → Reachable st₂

/-- The search-match property in the words of section 4.5: the query is a
case-insensitive substring of the title or of some ingredient of the
record. -/
def QueryMatches (q : String) (r : SavedRecipe) : Prop :=
  (jsToLower q).data <:+: (jsToLower r.title).data ∨
    ∃ i ∈ r.ingredients, (jsToLower q).data <:+: (jsToLower i).data

instance (q : String) (r : SavedRecipe) : Decidable (QueryMatches q r) := by
  unfold QueryMatches
  infer_instance

end GroceryRemix

namespace GroceryRemix

lemma toggle_nodup (f : String) (l : List String) (h : l.Nodup) :
    (toggleFilter f l).Nodup := by
  unfold toggleFilter
  by_cases hf : f ∈ l
  · simpa [hf] using h.filter _
  · simp [hf, List.nodup_append, h, List.disjoint_singleton]

lemma toggle_not_mem_twice (f : String) (l : List String) (hf : f ∉ l) :
    toggleFilter f (toggleFilter f l) = l := by
  unfold toggleFilter
  simp only [if_neg hf]
  have hmem : f ∈ l ++ [f] := by simp
  rw [if_pos hmem, List.filter_append]
  have h1 : List.filter (fun x => x != f) [f] = [] := by simp
  rw [h1, List.append_nil, List.filter_eq_self]
  intro a ha
  rw [bne_iff_ne]
  exact fun hh => hf (hh ▸ ha)

lemma toggle_twice_perm (f : String) (l : List String) (h : l.Nodup) :
    (toggleFilter f (toggleFilter f l)).Perm l := by
  by_cases hf : f ∈ l
  · unfold toggleFilter
    rw [if_pos hf]
    have hnot : f ∉ List.filter (fun x => x != f) l := by
      simp [List.mem_filter]
    rw [if_neg hnot]
    refine (List.perm_append_singleton f _).trans ?_
    rw [← h.erase_eq_filter f]
    exact (List.perm_cons_erase hf).symm
  · rw [toggle_not_mem_twice f l hf]

lemma storeInv_empty : StoreInv RecipeStore.empty := by
  constructor <;> simp [RecipeStore.empty]

lemma storeInv_save (st : RecipeStore) (persistOk : List SavedRecipe → Bool)
    (title body : String) (ingredients filters : List String) (now : Nat)
    (hinv : StoreInv st) :
    StoreInv (st.save persistOk title body ingredients filters now).2 := by
  unfold RecipeStore.save
  split
  · constructor
    · intro r hr
      rcases List.mem_append.mp hr with hl | hr1
      · exact Nat.lt_succ_of_lt (hinv.1 r hl)
      · rw [List.mem_singleton.mp hr1]
        exact Nat.lt_succ_self _
    · rw [List.map_append, List.nodup_append]
      refine ⟨hinv.2, by simp, ?_⟩
      rw [List.map_singleton, List.disjoint_singleton]
      intro hmem
      rcases List.mem_map.mp hmem with ⟨r, hr, hid⟩
      exact absurd (hinv.1 r hr) (by rw [hid]; exact lt_irrefl _)
  · exact hinv

lemma storeInv_delete (st : RecipeStore) (id : Nat) (st₂ : RecipeStore)
    (hinv : StoreInv st) (h : st.delete id = Except.ok st₂) : StoreInv st₂ := by
  unfold RecipeStore.delete at h
  split at h
  · injection h with h
    subst h
    constructor
    · intro r hr
      exact hinv.1 r (List.mem_filter.mp hr).1
    · exact List.Nodup.sublist ((List.filter_sublist _).map SavedRecipe.id) hinv.2
  · exact absurd h (by simp)

lemma reachable_storeInv (st : RecipeStore) (h : Reachable st) : StoreInv st := by
  induction h with
  | init => exact storeInv_empty
  | sv pOk st title body ingredients filters now res st₂ hr hsave ih =>
      have hs := storeInv_save st pOk title body ingredients filters now ih
      rw [hsave] at hs
      exact hs
  | del st id st₂ hr hdel ih => exact storeInv_delete st id st₂ ih hdel

lemma delete_missing (st : RecipeStore) (id : Nat)
    (h : ∀ r ∈ st.recipes, r.id ≠ id) :
    st.delete id = Except.error AppError.NotFound := by
  unfold RecipeStore.delete
  rw [if_neg]
  intro hany
  rcases List.any_eq_true.mp hany with ⟨r, hr, hid⟩
  exact h r hr (beq_iff_eq.mp hid)

lemma delete_existing (st : RecipeStore) (id : Nat)
    (h : ∃ r ∈ st.recipes, r.id = id) :
    st.delete id = Except.ok
      { recipes := st.recipes.filter (fun r => r.id != id),
        nextId := st.nextId } := by
  rcases h with ⟨r, hr, hid⟩
  unfold RecipeStore.delete
  have hany : (st.recipes.any fun r => r.id == id) = true :=
    List.any_eq_true.mpr ⟨r, hr, beq_iff_eq.mpr hid⟩
  simp [hany]

lemma delete_then_delete (st : RecipeStore) (id : Nat) (st₂ : RecipeStore)
    (h : st.delete id = Except.ok st₂) :
    st₂.delete id = Except.error AppError.NotFound := by
  unfold RecipeStore.delete at h
  split at h
  · injection h with h
    subst h
    unfold RecipeStore.delete
    rw [if_neg]
    intro hany
    rcases List.any_eq_true.mp hany with ⟨r, hr, hid⟩
    have := (List.mem_filter.mp hr).2
    rw [bne_iff_ne] at this
    exact this (beq_iff_eq.mp hid)
  · exact absurd h (by simp)

/-- C10 (counterexample): toggling a filter that sits before the end of the
list twice does not return the original list — the filter is removed and then
re-appended at the end, so the order changes. -/
theorem toggleFilter_twice_reorders :
    toggleFilter "a" (toggleFilter "a" ["a", "b"]) ≠ ["a", "b"] := by decide

/-- C10 (amended): for every duplicate-free filter list, a single application
of toggleFilter or toggleMacroFilter yields a duplicate-free list (so the
dietary_filters array sent in a request never holds the same filter twice);
toggling twice with a filter not in the list returns the original list, and
toggling twice in general returns a permutation of the original list (the
same filter set, not necessarily the original order). -/
theorem toggles_preserve_nodup_and_elements (f : String) (l : List String)
    (h : l.Nodup) :
    (toggleFilter f l).Nodup ∧ (toggleMacroFilter f l).Nodup ∧
    (f ∉ l → toggleFilter f (toggleFilter f l) = l) ∧
    (toggleFilter f (toggleFilter f l)).Perm l ∧
    (f ∉ l → toggleMacroFilter f (toggleMacroFilter f l) = l) ∧
    (toggleMacroFilter f (toggleMacroFilter f l)).Perm l :=
  ⟨toggle_nodup f l h, toggle_nodup f l h,
   fun hf => toggle_not_mem_twice f l hf, toggle_twice_perm f l h,
   fun hf => toggle_not_mem_twice f l hf, toggle_twice_perm f l h⟩

/-- C10 (witness): the amended statement at a concrete duplicate-free
list. -/
theorem toggles_preserve_nodup_and_elements_witness :
    (toggleFilter "vegan" ["vegetarian"]).Nodup ∧
    (toggleMacroFilter "vegan" ["vegetarian"]).Nodup ∧
    ("vegan" ∉ ["vegetarian"] →
      toggleFilter "vegan" (toggleFilter "vegan" ["vegetarian"]) = ["vegetarian"]) ∧
    (toggleFilter "vegan" (toggleFilter "vegan" ["vegetarian"])).Perm ["vegetarian"] ∧
    ("vegan" ∉ ["vegetarian"] →
      toggleMacroFilter "vegan" (toggleMacroFilter "vegan" ["vegetarian"]) = ["vegetarian"]) ∧
    (toggleMacroFilter "vegan" (toggleMacroFilter "vegan" ["vegetarian"])).Perm ["vegetarian"] :=
  toggles_preserve_nodup_and_elements "vegan" ["vegetarian"] (by decide)

/-- C9 (counterexample): the generate-from-macros request built by the client
can carry a negative macro target — the handler applies parseInt with no sign
or minimum check, so a calories input of -100 is sent as the integer -100. -/
theorem macro_request_can_be_negative :
    generateFromMacros "-100" "" "" "" [] =
      some { calories := some (-100), protein := none, carbs := none,
             fat := none, dietary_filters := [] } ∧
    ¬ (0 : Int) ≤ -100 := by decide

/-- C9 (amended): every generate-from-macros request body built by the client
carries exactly the four optional integer macro fields (each absent when its
input is empty, otherwise the parseInt value of the input — an integer that
need not be non-negative) plus the dietary_filters list, and at least one
macro input was non-empty. -/
theorem macro_request_fields (cal prot carbs fat : String) (fs : List String)
    (b : MacroBody) (h : generateFromMacros cal prot carbs fat fs = some b) :
    b.calories = macroField cal ∧ b.protein = macroField prot ∧
    b.carbs = macroField carbs ∧ b.fat = macroField fat ∧
    b.dietary_filters = fs ∧
    ¬(cal = "" ∧ prot = "" ∧ carbs = "" ∧ fat = "") := by
  unfold generateFromMacros at h
  split at h
  · exact absurd h (by simp)
  · rename_i hc
    injection h with h
    subst h
    refine ⟨rfl, rfl, rfl, rfl, rfl, ?_⟩
    rintro ⟨rfl, rfl, rfl, rfl⟩
    exact hc (by decide)

/-- C9 (witness): the amended statement at a concrete request with a calories
target of 500. -/
theorem macro_request_fields_witness :
    (MacroBody.mk (some 500) none none none ["keto"]).calories = macroField "500" ∧
    (MacroBody.mk (some 500) none none none ["keto"]).protein = macroField "" ∧
    (MacroBody.mk (some 500) none none none ["keto"]).carbs = macroField "" ∧
    (MacroBody.mk (some 500) none none none ["keto"]).fat = macroField "" ∧
    (MacroBody.mk (some 500) none none none ["keto"]).dietary_filters = ["keto"] ∧
    ¬("500" = "" ∧ "" = "" ∧ "" = "" ∧ "" = "") :=
  macro_request_fields "500" "" "" "" ["keto"]
    (MacroBody.mk (some 500) none none none ["keto"]) (by decide)

/-- C6: whenever save fails with StorageWriteError (the durable write cannot
complete), the store state after the call equals the state before the call —
the failed save makes no visible mutation, so a retry starts from a
consistent state. -/
theorem save_write_failure_rolls_back (st : RecipeStore)
    (persistOk : List SavedRecipe → Bool) (title body : String)
    (ingredients filters : List String) (now : Nat) (st₂ : RecipeStore)
    (h : st.save persistOk title body ingredients filters now =
      (Except.error AppError.StorageWriteError, st₂)) :
    st₂ = st := by
  unfold RecipeStore.save at h
  split at h
  · exact absurd h (by simp)
  · injection h with h1 h2
    exact h2.symm

/-- C6 (witness): a concrete save against a persistence layer whose write
never completes leaves the empty store unchanged. -/
theorem save_write_failure_rolls_back_witness :
    (RecipeStore.empty.save (fun _ => false) "Lemon Chicken" "Steps"
      ["chicken"] ["gluten-free"] 5).2 = RecipeStore.empty :=
  save_write_failure_rolls_back RecipeStore.empty (fun _ => false)
    "Lemon Chicken" "Steps" ["chicken"] ["gluten-free"] 5 _ (by rfl)

/-- C7: the response parser is total and lossless — for every input string
the returned body is the full raw input unmodified; the title is the trimmed
first non-empty line when it reads as heading-like, else the generic fallback
label; when no non-empty line exists (in particular for empty input) the
result is the fallback title with the raw (empty) body. -/
theorem parser_total_body_passthrough (raw : String) :
    (parseResponse raw).body = raw ∧
    (firstNonBlankLine raw = none →
      parseResponse raw = ⟨fallbackTitle, raw, false⟩) ∧
    (∀ l, firstNonBlankLine raw = some l → isHeadingLike (jsTrim l) = true →
      parseResponse raw = ⟨jsTrim l, raw, true⟩) ∧
    (∀ l, firstNonBlankLine raw = some l → isHeadingLike (jsTrim l) = false →
      parseResponse raw = ⟨fallbackTitle, raw, false⟩) ∧
    parseResponse "" = ⟨fallbackTitle, "", false⟩ := by
  refine ⟨?_, ?_, ?_, ?_, by decide⟩
  · unfold parseResponse
    cases h : firstNonBlankLine raw with
    | none => rfl
    | some l => by_cases hh : isHeadingLike (jsTrim l) = true <;> simp [hh]
  · intro h
    unfold parseResponse
    rw [h]
  · intro l h hh
    unfold parseResponse
    rw [h]
    simp [hh]
  · intro l h hh
    unfold parseResponse
    rw [h]
    simp [hh]

/-- C7 (witness): the parser at a heading-led reply, at a reply whose first
line does not read as a heading, and at the empty reply. -/
theorem parser_total_body_passthrough_witness :
    parseResponse "Lemon Chicken\nStep one." =
      ⟨"Lemon Chicken", "Lemon Chicken\nStep one.", true⟩ ∧
    parseResponse "This first line is a full sentence." =
      ⟨fallbackTitle, "This first line is a full sentence.", false⟩ ∧
    parseResponse "" = ⟨fallbackTitle, "", false⟩ :=
  ⟨(parser_total_body_passthrough "Lemon Chicken\nStep one.").2.2.1
      "Lemon Chicken" (by decide) (by decide),
   (parser_total_body_passthrough "This first line is a full sentence.").2.2.2.1
      "This first line is a full sentence." (by decide) (by decide),
   (parser_total_body_passthrough "").2.2.2.2⟩

/-- C1: every generation or substitution request that violates its
precondition (empty ingredient list for generate-from-ingredients, no macro
target for generate-from-macros, empty ingredient for substitution) fails
with InvalidRequest and the gateway call count is zero, for every gateway; in
the browser client the corresponding handlers issue no fetch at all on
validation failure (blank ingredients textarea, four empty macro inputs,
blank substitution ingredient). -/
theorem invalid_request_fails_before_gateway (gw : Gateway)
    (reqI : IngredientsRequest) (reqM : MacrosRequest)
    (reqS : SubstitutionRequest) (s : String) (fsG : List String)
    (cal prot carbs fat : String) (fsM : List String) (sub ctx : String)
    (hI : reqI.ingredients = [])
    (hM : reqM.targets = ⟨none, none, none, none⟩)
    (hS : reqS.ingredient = "")
    (hs : jsTrim s = "")
    (hm : cal = "" ∧ prot = "" ∧ carbs = "" ∧ fat = "")
    (hsub : jsTrim sub = "") :
    generateFromIngredientsOp gw reqI = (Except.error AppError.InvalidRequest, 0) ∧
    generateFromMacrosOp gw reqM = (Except.error AppError.InvalidRequest, 0) ∧
    suggestSubstitutionOp gw reqS = (Except.error AppError.InvalidRequest, 0) ∧
    generateRecipe s fsG = none ∧
    generateFromMacros cal prot carbs fat fsM = none ∧
    getSubstitution sub ctx = none := by
  obtain ⟨rfl, rfl, rfl, rfl⟩ := hm
  refine ⟨?_, ?_, ?_, ?_, by rfl, ?_⟩
  · unfold generateFromIngredientsOp
    rw [hI]
    rfl
  · unfold generateFromMacrosOp
    rw [hM]
    rfl
  · unfold suggestSubstitutionOp
    rw [hS]
    rfl
  · unfold generateRecipe
    rw [hs]
    rfl
  · unfold getSubstitution
    rw [hsub]
    rfl

/-- C1 (witness): the fail-fast behaviour at concrete invalid requests,
against a gateway that would answer every call. -/
theorem invalid_request_fails_before_gateway_witness :
    generateFromIngredientsOp (fun _ _ => Except.ok "text") ⟨[], ["vegan"]⟩ =
      (Except.error AppError.InvalidRequest, 0) ∧
    generateFromMacrosOp (fun _ _ => Except.ok "text")
        ⟨⟨none, none, none, none⟩, []⟩ =
      (Except.error AppError.InvalidRequest, 0) ∧
    suggestSubstitutionOp (fun _ _ => Except.ok "text") ⟨"", none⟩ =
      (Except.error AppError.InvalidRequest, 0) ∧
    generateRecipe "  " ["vegan"] = none ∧
    generateFromMacros "" "" "" "" [] = none ∧
    getSubstitution " " "baking" = none :=
  invalid_request_fails_before_gateway (fun _ _ => Except.ok "text")
    ⟨[], ["vegan"]⟩ ⟨⟨none, none, none, none⟩, []⟩ ⟨"", none⟩
    "  " ["vegan"] "" "" "" "" [] " " "baking"
    (by rfl) (by rfl) (by rfl) (by decide) (by decide) (by decide)

/-- C3: every successful generation echoes its input exactly — the returned
ingredients and dietary_filters of generate-from-ingredients equal the
request's, and the returned targets and dietary_filters of
generate-from-macros equal the request's, for every gateway and hence for
every possible model output text. -/
theorem successful_generation_echoes_input (gw : Gateway)
    (reqI : IngredientsRequest) (reqM : MacrosRequest)
    (outI : IngredientsResult) (outM : MacrosResult)
    (hI : (generateFromIngredientsOp gw reqI).1 = Except.ok outI)
    (hM : (generateFromMacrosOp gw reqM).1 = Except.ok outM) :
    outI.ingredients = reqI.ingredients ∧
    outI.dietary_filters = reqI.dietary_filters ∧
    outM.targets = reqM.targets ∧
    outM.dietary_filters = reqM.dietary_filters := by
  unfold generateFromIngredientsOp at hI
  unfold generateFromMacrosOp at hM
  split at hI
  · exact absurd hI (by simp)
  · split at hI
    · exact absurd hI (by simp)
    · rename_i raw heq
      refine ?_
      split at hM
      · exact absurd hM (by simp)
      · split at hM
        · exact absurd hM (by simp)
        · rename_i rawM heqM
          simp only [] at hI hM
          injection hI with hI
          injection hM with hM
          subst hI
          subst hM
          exact ⟨rfl, rfl, rfl, rfl⟩

/-- C3 (witness): the echo property at concrete successful generations
against a gateway returning a fixed reply. -/
theorem successful_generation_echoes_input_witness :
    (IngredientsResult.mk "Recipe text" ["chicken", "lemon"] ["vegan"]).ingredients =
      ["chicken", "lemon"] ∧
    (IngredientsResult.mk "Recipe text" ["chicken", "lemon"] ["vegan"]).dietary_filters =
      ["vegan"] ∧
    (MacrosResult.mk "Recipe text" ⟨some 500, some 40, none, none⟩ ["keto"]).targets =
      ⟨some 500, some 40, none, none⟩ ∧
    (MacrosResult.mk "Recipe text" ⟨some 500, some 40, none, none⟩ ["keto"]).dietary_filters =
      ["keto"] :=
  successful_generation_echoes_input (fun _ _ => Except.ok "Recipe text")
    ⟨["chicken", "lemon"], ["vegan"]⟩ ⟨⟨some 500, some 40, none, none⟩, ["keto"]⟩
    (IngredientsResult.mk "Recipe text" ["chicken", "lemon"] ["vegan"])
    (MacrosResult.mk "Recipe text" ⟨some 500, some 40, none, none⟩ ["keto"])
    (by rfl) (by rfl)

/-- C2: in every store satisfying the id invariant, saving a recipe and then
getting the returned id yields a record whose title, body, ingredients and
filters equal the values that were saved. -/
theorem save_get_roundtrip (st : RecipeStore)
    (persistOk : List SavedRecipe → Bool) (title body : String)
    (ingredients filters : List String) (now : Nat) (i : Nat)
    (st₂ : RecipeStore) (hinv : StoreInv st)
    (h : st.save persistOk title body ingredients filters now =
      (Except.ok i, st₂)) :
    st₂.get i = Except.ok
      { id := i, title := title, body := body, ingredients := ingredients,
        filters := filters, createdAt := now } := by
  unfold RecipeStore.save at h
  split at h
  · injection h with h1 h2
    injection h1 with h1
    subst h1
    subst h2
    unfold RecipeStore.get
    rw [List.find?_append]
    have hnone : st.recipes.find? (fun x => x.id == st.nextId) = none := by
      rw [List.find?_eq_none]
      intro x hx
      simp only [beq_iff_eq]
      exact Nat.ne_of_lt (hinv.1 x hx)
    rw [hnone]
    simp
  · exact absurd h (by simp)

/-- C2 (witness): save followed by get on the empty store returns exactly the
saved fields. -/
theorem save_get_roundtrip_witness :
    (RecipeStore.mk
        [⟨0, "Lemon Chicken", "Steps", ["chicken", "lemon"], ["gluten-free"], 7⟩]
        1).get 0 =
      Except.ok ⟨0, "Lemon Chicken", "Steps", ["chicken", "lemon"], ["gluten-free"], 7⟩ :=
  save_get_roundtrip RecipeStore.empty (fun _ => true) "Lemon Chicken" "Steps"
    ["chicken", "lemon"] ["gluten-free"] 7 0
    (RecipeStore.mk
      [⟨0, "Lemon Chicken", "Steps", ["chicken", "lemon"], ["gluten-free"], 7⟩] 1)
    (by decide) (by rfl)

/-- C4: delete fails with NotFound when no record has the id; when a record
with the id exists it removes exactly the records with that id and keeps the
rest of the collection; hence after a save returning an id, deleting that id
succeeds once and a second delete of the same id fails with NotFound. -/
theorem delete_contract (st : RecipeStore) (id : Nat) :
    ((∀ r ∈ st.recipes, r.id ≠ id) →
      st.delete id = Except.error AppError.NotFound) ∧
    ((∃ r ∈ st.recipes, r.id = id) →
      st.delete id = Except.ok
        { recipes := st.recipes.filter (fun r => r.id != id),
          nextId := st.nextId }) ∧
    (∀ st₂, st.delete id = Except.ok st₂ →
      st₂.delete id = Except.error AppError.NotFound) ∧
    (∀ persistOk title body ingredients filters now st₂,
      st.save persistOk title body ingredients filters now =
        (Except.ok id, st₂) →
      st₂.delete id = Except.ok
        { recipes := st₂.recipes.filter (fun r => r.id != id),
          nextId := st₂.nextId }) := by
  refine ⟨delete_missing st id, delete_existing st id,
    fun st₂ h => delete_then_delete st id st₂ h, ?_⟩
  intro persistOk title body ingredients filters now st₂ h
  unfold RecipeStore.save at h
  split at h
  · injection h with h1 h2
    injection h1 with h1
    apply delete_existing
    refine ⟨⟨st.nextId, title, body, ingredients, filters, now⟩, ?_, h1⟩
    rw [← h2]
    exact List.mem_append_right _ (List.mem_singleton_self _)
  · exact absurd h (by simp)

/-- C4 (witness): deleting a present id removes its record; deleting it again
from the reduced store fails with NotFound. -/
theorem delete_contract_witness :
    (RecipeStore.mk [⟨0, "Lemon Chicken", "Steps", ["chicken"], [], 7⟩] 1).delete 0 =
      Except.ok (RecipeStore.mk [] 1) ∧
    (RecipeStore.mk [] 1).delete 0 = Except.error AppError.NotFound :=
  ⟨(delete_contract (RecipeStore.mk
      [⟨0, "Lemon Chicken", "Steps", ["chicken"], [], 7⟩] 1) 0).2.1 (by decide),
   (delete_contract (RecipeStore.mk [] 1) 0).1 (by decide)⟩

/-- C5: search returns exactly the saved recipes whose title or some
ingredient contains the query as a case-insensitive substring; the result is
a sublist of listAll (so matches appear in insertion order), and when nothing
matches the result is the empty list, not an error. -/
theorem search_contract (st : RecipeStore) (q : String) :
    (∀ r, r ∈ st.search q ↔ r ∈ st.listAll ∧ QueryMatches q r) ∧
    List.Sublist (st.search q) st.listAll ∧
    ((∀ r ∈ st.listAll, ¬ QueryMatches q r) → st.search q = []) := by
  have key : ∀ r, matchesQuery q r = true ↔ QueryMatches q r := by
    intro r
    unfold matchesQuery QueryMatches substrOf
    simp [List.any_eq_true]
  refine ⟨?_, ?_, ?_⟩
  · intro r
    unfold RecipeStore.search RecipeStore.listAll
    rw [List.mem_filter, key]
  · exact List.filter_sublist _
  · intro hn
    unfold RecipeStore.search
    rw [List.filter_eq_nil_iff]
    intro r hr
    rw [key]
    exact hn r hr

/-- C5 (witness): on a store holding a gluten-free pasta recipe and an
unrelated recipe, a query matching nothing returns the empty list, and the
membership characterisation holds for the matching record. -/
theorem search_contract_witness :
    ((RecipeStore.mk
        [⟨0, "Gluten-Free Pasta", "B1", ["pasta"], ["gluten-free"], 1⟩,
         ⟨1, "Beef Stew", "B2", ["beef", "carrot"], [], 2⟩] 2).search "zzz" = []) ∧
    (⟨0, "Gluten-Free Pasta", "B1", ["pasta"], ["gluten-free"], 1⟩ ∈
        (RecipeStore.mk
          [⟨0, "Gluten-Free Pasta", "B1", ["pasta"], ["gluten-free"], 1⟩,
           ⟨1, "Beef Stew", "B2", ["beef", "carrot"], [], 2⟩] 2).search "gluten" ↔
      ⟨0, "Gluten-Free Pasta", "B1", ["pasta"], ["gluten-free"], 1⟩ ∈
        (RecipeStore.mk
          [⟨0, "Gluten-Free Pasta", "B1", ["pasta"], ["gluten-free"], 1⟩,
           ⟨1, "Beef Stew", "B2", ["beef", "carrot"], [], 2⟩] 2).listAll ∧
      QueryMatches "gluten"
        ⟨0, "Gluten-Free Pasta", "B1", ["pasta"], ["gluten-free"], 1⟩) :=
  ⟨(search_contract (RecipeStore.mk
      [⟨0, "Gluten-Free Pasta", "B1", ["pasta"], ["gluten-free"], 1⟩,
       ⟨1, "Beef Stew", "B2", ["beef", "carrot"], [], 2⟩] 2) "zzz").2.2 (by decide),
   (search_contract (RecipeStore.mk
      [⟨0, "Gluten-Free Pasta", "B1", ["pasta"], ["gluten-free"], 1⟩,
       ⟨1, "Beef Stew", "B2", ["beef", "carrot"], [], 2⟩] 2) "gluten").1
     ⟨0, "Gluten-Free Pasta", "B1", ["pasta"], ["gluten-free"], 1⟩⟩

/-- C8: in every store state reachable from the empty store by save and
delete calls, the stored identifiers are pairwise distinct, every stored id
is below the next fresh id (so save assigns an id held by no existing record
and ids are never reused), and the next fresh id is held by no record. -/
theorem reachable_ids_unique (st : RecipeStore) (h : Reachable st) :
    (st.recipes.map SavedRecipe.id).Nodup ∧
    (∀ r ∈ st.recipes, r.id < st.nextId) ∧
    st.nextId ∉ st.recipes.map SavedRecipe.id := by
  have hinv := reachable_storeInv st h
  refine ⟨hinv.2, hinv.1, ?_⟩
  intro hmem
  rcases List.mem_map.mp hmem with ⟨r, hr, hid⟩
  exact absurd (hinv.1 r hr) (by rw [hid]; exact lt_irrefl _)

/-- C8 (witness): the id-uniqueness facts at the concrete store reached from
the empty store by one successful save. -/
theorem reachable_ids_unique_witness :
    ((RecipeStore.mk [⟨0, "Lemon Chicken", "Steps", ["chicken"], ["gluten-free"], 5⟩] 1).recipes.map
        SavedRecipe.id).Nodup ∧
    (∀ r ∈ (RecipeStore.mk
        [⟨0, "Lemon Chicken", "Steps", ["chicken"], ["gluten-free"], 5⟩] 1).recipes,
      r.id < (RecipeStore.mk
        [⟨0, "Lemon Chicken", "Steps", ["chicken"], ["gluten-free"], 5⟩] 1).nextId) ∧
    (RecipeStore.mk
        [⟨0, "Lemon Chicken", "Steps", ["chicken"], ["gluten-free"], 5⟩] 1).nextId ∉
      (RecipeStore.mk
        [⟨0, "Lemon Chicken", "Steps", ["chicken"], ["gluten-free"], 5⟩] 1).recipes.map
        SavedRecipe.id :=
  reachable_ids_unique
    (RecipeStore.mk [⟨0, "Lemon Chicken", "Steps", ["chicken"], ["gluten-free"], 5⟩] 1)
    (Reachable.sv (fun _ => true) RecipeStore.empty "Lemon Chicken" "Steps"
      ["chicken"] ["gluten-free"] 5 (Except.ok 0)
      (RecipeStore.mk [⟨0, "Lemon Chicken", "Steps", ["chicken"], ["gluten-free"], 5⟩] 1)
      Reachable.init (by rfl))

end GroceryRemix
